import Mathlib

/-!
Shallow embedding of `src/pymullvad/mullvad.py`, a Python wrapper around the
Mullvad VPN command-line tool.

The external tool is modelled as an oracle (`SysEnv`) giving, for every
command string, the stream of responses the tool produces on the successive
invocations of that command.  Executing a command also records it in an
instrumentation state (`TraceState`), so theorems can speak about which
commands a method issues, in which order, and how often it sleeps.  The
Python string operations the source relies on (the substring operator `in`,
`str.strip`, `str.split`, `int`, and f-string rendering of `None`) are
embedded as executable functions on `String` and `List Char`.
-/

/- ===================== Python string primitives ===================== -/

/-- Python truthiness of an optional-string argument (as in `if server:`):
`None` and the empty string are falsy, every other string is truthy. -/
def truthy : Option String → Bool
  | none => false
  | some s => !s.isEmpty

/-- Python f-string rendering of an optional-string argument: `None` prints
as the four-letter text "None", a string prints as itself. -/
def pyStr : Option String → String
  | none => "None"
  | some s => s

/-- Python `str.strip()` on a character list: drop whitespace from both
ends.  Lean's `Char.isWhitespace` covers the ASCII whitespace the Mullvad
CLI emits. -/
def py_strip_chars (l : List Char) : List Char :=
  ((l.dropWhile Char.isWhitespace).reverse.dropWhile Char.isWhitespace).reverse

/-- Python `str.strip()` on a string. -/
def py_strip (s : String) : String :=
  String.mk (py_strip_chars s.toList)

/-- Test whether the second list starts with the first (helper used to
embed the Python substring operator). -/
def beginsWith : List Char → List Char → Bool
  | [], _ => true
  | _ :: _, [] => false
  | a :: sub, b :: l => a == b && beginsWith sub l

/-- Python substring operator `sub in s` on character lists: scan every
suffix for a match at its head. -/
def pyInList (sub : List Char) : List Char → Bool
  | [] => sub.isEmpty
  | c :: t => beginsWith sub (c :: t) || pyInList sub t

/-- Python substring operator `sub in s` on strings. -/
def pyContains (sub s : String) : Bool :=
  pyInList sub.toList s.toList

/-- Status classification used by `connect` (source lines 133 and 142): a
status text is considered Connected exactly when the Python expression
`"Connected" in status` is true. -/
def classifyConnected (s : String) : Bool :=
  pyContains "Connected" s

/-- Python `str.split(sep)` for a single-character separator: split at every
occurrence, keeping empty pieces, so the result is always non-empty. -/
def py_split_char (sep : Char) : List Char → List (List Char)
  | [] => [[]]
  | c :: t =>
    if c = sep then [] :: py_split_char sep t
    else
      match py_split_char sep t with
      | [] => [[c]]
      | h :: r => (c :: h) :: r

/-- First line of a text, as Python's `text.split("\n")[0]`. -/
def py_first_line (l : List Char) : List Char :=
  (py_split_char '\n' l).headD []

/-- Value of a digit string read in base 10. -/
def py_digits_to_nat (l : List Char) : Nat :=
  l.foldl (fun acc c => acc * 10 + (c.toNat - '0'.toNat)) 0

/-- Python `int(text)` in base 10 on an already-stripped string: an optional
sign followed by a non-empty run of digits; anything else raises ValueError,
modelled as `none`.  (PEP 515 underscore grouping, which cannot occur in
Mullvad account numbers, is not modelled.) -/
def py_int_chars : List Char → Option Int
  | [] => none
  | '+' :: t => if t ≠ [] ∧ t.all Char.isDigit then some (py_digits_to_nat t : Int) else none
  | '-' :: t => if t ≠ [] ∧ t.all Char.isDigit then some (-(py_digits_to_nat t : Int)) else none
  | l => if l.all Char.isDigit then some (py_digits_to_nat l : Int) else none

/- ===================== External process model ===================== -/

/-- Outcome of one spawned process: exit status and the captured output
texts (already decoded). -/
structure ProcOutput where
  exitCode : Int
  stdout : String
  stderr : String
deriving DecidableEq

/-- Model of the machine the wrapper runs on.  `mullvadPresent` says whether
the external `mullvad` binary can be located; `out` gives, for each command
string, the stream of responses the tool produces on the successive
invocations of that command (the index is the number of times that command
was issued before). -/
structure SysEnv where
  mullvadPresent : Bool
  out : String → Nat → ProcOutput

/-- Response produced by the shell when the `mullvad` binary is missing:
`subprocess.run(..., shell=True)` still succeeds (the shell itself spawns),
and the shell reports the missing program as ordinary stderr text with exit
status 127 — no Python exception is raised. -/
def shellNotFound : ProcOutput :=
  { exitCode := 127, stdout := "", stderr := "/bin/sh: 1: mullvad: not found\n" }

/-- Shell-mediated execution of one command (`subprocess.run` with
`shell=True`): total, because spawning the shell always succeeds; a missing
`mullvad` binary yields the shell's not-found report instead of an
exception. -/
def sysExec (e : SysEnv) (command : String) (k : Nat) : ProcOutput :=
  if e.mullvadPresent then e.out command k else shellNotFound

/-- Instrumentation threaded through a run: the list of commands issued so
far (in order) and the list of sleep durations performed so far. -/
structure TraceState where
  trace : List String
  sleeps : List Rat
deriving DecidableEq

/-- Instrumentation state at the start of a call. -/
def initState : TraceState :=
  { trace := [], sleeps := [] }

/-- Effect of `time.sleep(0.5)` on the instrumentation state. -/
def sleepHalf (s : TraceState) : TraceState :=
  { s with sleeps := s.sleeps ++ [(1 : Rat) / 2] }

/- ===================== The Mullvad class ===================== -/

/-- Embedding of `Mullvad.run_command` (source lines 28–42): run the command
through the shell, wait for completion, and return the decoded stdout and
stderr texts.  The exit code is captured by the model but never inspected,
and no code path raises. -/
def run_command (e : SysEnv) (command : String) (s : TraceState) :
    (String × String) × TraceState :=
  let p := sysExec e command (s.trace.count command)
  ((p.stdout, p.stderr), { trace := s.trace ++ [command], sleeps := s.sleeps })

/-- Result of `subprocess.check_output(["mullvad", "account", "get"],
stderr=STDOUT)` in `get_account_number`: this direct (list-based, shell-free)
spawn either returns the merged output text, raises CalledProcessError on a
non-zero exit, or raises FileNotFoundError when the binary cannot be
located. -/
inductive SpawnResult where
  | ok (output : String)
  | calledProcessError
  | fileNotFound
deriving DecidableEq

/-- Exceptions that `get_account_number` can let escape. -/
inductive PyExc where
  | indexError
  | valueError
  | fileNotFoundError
deriving DecidableEq

/-- Values `get_account_number` can return: the parsed account number, or
the literal `False` the source returns after catching CalledProcessError. -/
inductive AccountOutcome where
  | value (n : Int)
  | notAvailable
deriving DecidableEq

/-- Embedding of `Mullvad.get_account_number` (source lines 10–26) as a
function of the spawn outcome: FileNotFoundError propagates (only
CalledProcessError is caught, producing the `False` return); otherwise the
output is stripped, the first line is taken, the piece after the first ":"
is selected (IndexError when the line has no colon), stripped and parsed as
an integer (ValueError when it is not one). -/
def get_account_number (r : SpawnResult) : Except PyExc AccountOutcome :=
  match r with
  | .fileNotFound => .error .fileNotFoundError
  | .calledProcessError => .ok .notAvailable
  | .ok output =>
    let result := py_strip_chars output.toList
    match (py_split_char '\n' result)[0]? with
    | none => .error .indexError
    | some line =>
      match (py_split_char ':' line)[1]? with
      | none => .error .indexError
      | some piece =>
        match py_int_chars (py_strip_chars piece) with
        | none => .error .valueError
        | some n => .ok (.value n)

/-- Spawn outcome of the account query on a given machine: a present binary
runs (exit 0 returns its merged output, otherwise CalledProcessError); a
missing binary raises FileNotFoundError. -/
def accountSpawn (e : SysEnv) : SpawnResult :=
  if e.mullvadPresent then
    if (e.out "mullvad account get" 0).exitCode = 0 then
      .ok (e.out "mullvad account get" 0).stdout
    else .calledProcessError
  else .fileNotFound

/-- Command string built by `Mullvad.set_relay_location` (source lines
95–102), with Python's f-string rendering of a `None` component. -/
def set_relay_location_cmd (country : String) (city server : Option String) : String :=
  if truthy server then
    "mullvad relay set location " ++ country ++ " " ++ pyStr city ++ " " ++ pyStr server
  else if truthy city then
    "mullvad relay set location " ++ country ++ " " ++ pyStr city
  else
    "mullvad relay set location " ++ country

/-- Embedding of `Mullvad.set_relay_location` (source lines 81–102): the
`server` truthiness test comes first, then `city`, then the country-only
fallback. -/
def set_relay_location (e : SysEnv) (country : String) (city server : Option String)
    (s : TraceState) : (String × String) × TraceState :=
  if truthy server then
    run_command e ("mullvad relay set location " ++ country ++ " " ++ pyStr city ++ " " ++ pyStr server) s
  else if truthy city then
    run_command e ("mullvad relay set location " ++ country ++ " " ++ pyStr city) s
  else
    run_command e ("mullvad relay set location " ++ country) s

/-- Embedding of `Mullvad.get_status` (source lines 169–182): run the status
command and return its stripped stdout. -/
def get_status (e : SysEnv) (verbose : Bool) (s : TraceState) : String × TraceState :=
  if verbose then
    let r := run_command e "mullvad status -v" s
    (py_strip r.1.1, r.2)
  else
    let r := run_command e "mullvad status" s
    (py_strip r.1.1, r.2)

/-- Embedding of `Mullvad.disconnect` (source lines 151–158): a single
pass-through of the disconnect command. -/
def disconnect (e : SysEnv) (s : TraceState) : (String × String) × TraceState :=
  run_command e "mullvad disconnect" s

/-- Stripped stdout of the k-th status query answered by the tool (the
stream of texts `get_status` observes during one call). -/
def statusText (e : SysEnv) (k : Nat) : String :=
  py_strip (sysExec e "mullvad status" k).stdout

/-- Poll loop of `Mullvad.connect` (source lines 141–149): query status;
exit with `true` when the text classifies Connected; otherwise sleep 0.5,
return `false` once `wait_iter > 20` (checked before the increment), else
increment and repeat. -/
def connectLoop (e : SysEnv) (wait_iter : Nat) (s : TraceState) : Bool × TraceState :=
  let p := get_status e false s
  if classifyConnected p.1 then (true, p.2)
  else
    if h : wait_iter > 20 then (false, sleepHalf p.2)
    else connectLoop e (wait_iter + 1) (sleepHalf p.2)
termination_by 21 - wait_iter
decreasing_by omega

/-- Embedding of `Mullvad.connect` (source lines 116–149): disconnect first
when the current status classifies Connected, apply the relay selector,
issue the connect command (all three results discarded), then run the poll
loop starting at `wait_iter = 0`. -/
def connect (e : SysEnv) (country : String) (city server : Option String)
    (s : TraceState) : Bool × TraceState :=
  let q := get_status e false s
  let s1 := if classifyConnected q.1 then (disconnect e q.2).2 else q.2
  let s2 := (set_relay_location e country city server s1).2
  let s3 := (run_command e "mullvad connect" s2).2
  connectLoop e 0 s3

/- ============ Concrete machines used by witnesses ============ -/

/-- Machine with the binary present whose every response is empty. -/
def quietEnv : SysEnv :=
  { mullvadPresent := true,
    out := fun _ _ => { exitCode := 0, stdout := "", stderr := "" } }

/-- Machine whose status always reads as connected. -/
def alwaysConnectedEnv : SysEnv :=
  { mullvadPresent := true,
    out := fun _ _ => { exitCode := 0, stdout := "Connected to se-got-wg-001", stderr := "" } }

/-- Machine whose status always reads "Connecting" (never classifying
Connected). -/
def neverConnectedEnv : SysEnv :=
  { mullvadPresent := true,
    out := fun _ _ => { exitCode := 0, stdout := "Connecting", stderr := "" } }

/-- Machine whose status stream classifies Connected for the first time at
stream position 22, which is the 22nd poll of the loop (position 0 is
consumed by the initial disconnect check). -/
def lateConnectEnv : SysEnv :=
  { mullvadPresent := true,
    out := fun _ k =>
      if k = 22 then { exitCode := 0, stdout := "Connected to se-got-wg-001", stderr := "" }
      else { exitCode := 0, stdout := "Connecting", stderr := "" } }

/-- Machine with the `mullvad` binary missing. -/
def missingBinaryEnv : SysEnv :=
  { mullvadPresent := false,
    out := fun _ _ => { exitCode := 0, stdout := "", stderr := "" } }

/-- Machine with the binary present whose tool reproduces, as an ordinary
operational error, exactly the output the shell gives when the binary is
missing. -/
def mimicNotFoundEnv : SysEnv :=
  { mullvadPresent := true, out := fun _ _ => shellNotFound }

/-- Machine answering every command with exit status 0 and fixed texts. -/
def exitZeroEnv : SysEnv :=
  { mullvadPresent := true,
    out := fun _ _ => { exitCode := 0, stdout := "done", stderr := "warn" } }

/-- Machine answering like `exitZeroEnv` but with exit status 1. -/
def exitOneEnv : SysEnv :=
  { mullvadPresent := true,
    out := fun _ _ => { exitCode := 1, stdout := "done", stderr := "warn" } }

/-- Machine for the noninterference witness: fixed status stream, one set of
responses for every other command. -/
def statusSameEnvA : SysEnv :=
  { mullvadPresent := true,
    out := fun cmd _ =>
      if cmd = "mullvad status" then { exitCode := 0, stdout := "Connected", stderr := "" }
      else { exitCode := 0, stdout := "output A", stderr := "error A" } }

/-- Machine with the same status stream as `statusSameEnvA` but different
responses (texts and exit codes) to every other command. -/
def statusSameEnvB : SysEnv :=
  { mullvadPresent := true,
    out := fun cmd _ =>
      if cmd = "mullvad status" then { exitCode := 0, stdout := "Connected", stderr := "" }
      else { exitCode := 1, stdout := "output B", stderr := "error B" } }

/- ============ Formalized claims refuted below ============ -/

/-- Claim C1 as stated by the specification: the poll loop gives the tool 21
poll attempts — `connect` returns false whenever none of the status texts of
poll attempts 1..21 classifies Connected (stream position 0 is the initial
disconnect check, so the loop's polls read stream positions from 1 on), and
returns true on the first poll attempt whose status text classifies
Connected. -/
def claimC1 : Prop :=
  ∀ (e : SysEnv) (country : String) (city server : Option String),
    ((∀ j, 1 ≤ j → j ≤ 21 → classifyConnected (statusText e j) = false) →
      (connect e country city server initState).1 = false)
    ∧ (∀ k, 1 ≤ k → k ≤ 21 → classifyConnected (statusText e k) = true →
        (∀ j, 1 ≤ j → j < k → classifyConnected (statusText e j) = false) →
        (connect e country city server initState).1 = true)

/-- Claim C8 as stated by the specification, for the shell-mediated
`run_command` path: a machine where the binary cannot be located must be
surfaced to the caller distinctly from any machine where the command ran
but reported an error, i.e. the caller-visible outcome of `run_command`
must differ between the two. -/
def claimC8 : Prop :=
  ∀ (e1 e2 : SysEnv) (command : String) (s : TraceState),
    e1.mullvadPresent = false → e2.mullvadPresent = true →
    run_command e1 command s ≠ run_command e2 command s

/- ===================== Helper lemmas ===================== -/

lemma py_split_char_ne_nil (sep : Char) (l : List Char) : py_split_char sep l ≠ [] := by
  cases l with
  | nil => simp [py_split_char]
  | cons c t =>
    simp only [py_split_char]
    by_cases h : c = sep
    · simp [h]
    · simp only [h, if_false]
      cases py_split_char sep t <;> simp

lemma py_split_char_of_not_mem (sep : Char) : ∀ (l : List Char), sep ∉ l →
    py_split_char sep l = [l] := by
  intro l
  induction l with
  | nil => intro h; rfl
  | cons c t ih =>
    intro h
    have hc : ¬ c = sep := fun he => h (by simp [he])
    have ht : sep ∉ t := fun hm => h (List.mem_cons_of_mem _ hm)
    simp only [py_split_char, hc, if_false, ih ht]

lemma beginsWith_iff (sub : List Char) : ∀ (l : List Char),
    beginsWith sub l = true ↔ ∃ r, l = sub ++ r := by
  induction sub with
  | nil => intro l; simp [beginsWith]
  | cons a sub ih =>
    intro l
    cases l with
    | nil =>
      simp only [beginsWith, List.cons_append]
      constructor
      · intro h; cases h
      · rintro ⟨r, hr⟩; cases hr
    | cons b t =>
      simp only [beginsWith, Bool.and_eq_true, beq_iff_eq, ih, List.cons_append,
        List.cons.injEq]
      constructor
      · rintro ⟨h1, r, h2⟩; exact ⟨r, h1.symm, h2⟩
      · rintro ⟨r, h1, h2⟩; exact ⟨h1.symm, r, h2⟩

lemma pyInList_iff (sub : List Char) : ∀ (l : List Char),
    pyInList sub l = true ↔ ∃ p q, l = p ++ sub ++ q := by
  intro l
  induction l with
  | nil =>
    simp only [pyInList, List.isEmpty_iff]
    constructor
    · rintro rfl; exact ⟨[], [], rfl⟩
    · rintro ⟨p, q, h⟩
      rcases List.append_eq_nil.mp h.symm with ⟨h1, h2⟩
      exact (List.append_eq_nil.mp h1).2
  | cons c t ih =>
    simp only [pyInList, Bool.or_eq_true, beginsWith_iff, ih]
    constructor
    · rintro (⟨r, hr⟩ | ⟨p, q, hp⟩)
      · exact ⟨[], r, by simpa using hr⟩
      · exact ⟨c :: p, q, by simp [hp]⟩
    · rintro ⟨p, q, hp⟩
      cases p with
      | nil => exact Or.inl ⟨q, by simpa using hp⟩
      | cons c' p' =>
        simp only [List.cons_append, List.cons.injEq] at hp
        exact Or.inr ⟨p', q, hp.2⟩

lemma count_snoc (l : List String) (a b : String) :
    (l ++ [b]).count a = l.count a + (if b = a then 1 else 0) := by
  by_cases h : b = a
  · simp [List.count_append, h]
  · have h' : ¬ a = b := fun hh => h hh.symm
    simp [List.count_append, List.count_cons, h, h']

lemma run_command_eq (e : SysEnv) (command : String) (s : TraceState) :
    run_command e command s =
      (((sysExec e command (s.trace.count command)).stdout,
        (sysExec e command (s.trace.count command)).stderr),
       { trace := s.trace ++ [command], sleeps := s.sleeps }) := rfl

lemma get_status_false_eq (e : SysEnv) (s : TraceState) :
    get_status e false s =
      (statusText e (s.trace.count "mullvad status"),
       { trace := s.trace ++ ["mullvad status"], sleeps := s.sleeps }) := rfl

lemma set_relay_location_eq (e : SysEnv) (country : String) (city server : Option String)
    (s : TraceState) :
    set_relay_location e country city server s =
      run_command e (set_relay_location_cmd country city server) s := by
  by_cases h1 : truthy server = true <;> by_cases h2 : truthy city = true <;>
    simp [set_relay_location, set_relay_location_cmd, h1, h2]

lemma relay_cmd_ne_disconnect (country : String) (city server : Option String) :
    set_relay_location_cmd country city server ≠ "mullvad disconnect" := by
  have e3 : ("mullvad disconnect").length = 18 := rfl
  have e1 : ("mullvad relay set location ").length = 27 := rfl
  unfold set_relay_location_cmd
  split
  · intro h
    have h' := congrArg String.length h
    simp only [String.length_append] at h'
    omega
  · split
    · intro h
      have h' := congrArg String.length h
      simp only [String.length_append] at h'
      omega
    · intro h
      have h' := congrArg String.length h
      simp only [String.length_append] at h'
      omega

lemma relay_cmd_ne_status (country : String) (city server : Option String) :
    set_relay_location_cmd country city server ≠ "mullvad status" := by
  have e3 : ("mullvad status").length = 14 := rfl
  have e1 : ("mullvad relay set location ").length = 27 := rfl
  unfold set_relay_location_cmd
  split
  · intro h
    have h' := congrArg String.length h
    simp only [String.length_append] at h'
    omega
  · split
    · intro h
      have h' := congrArg String.length h
      simp only [String.length_append] at h'
      omega
    · intro h
      have h' := congrArg String.length h
      simp only [String.length_append] at h'
      omega

/-- Timeout behaviour of the poll loop: when no status text from the
current stream position onwards (up to the loop's remaining budget)
classifies Connected, the loop returns `false` after issuing `22 - w`
status queries and sleeping 0.5 after each of them. -/
lemma connectLoop_timeout (e : SysEnv) :
    ∀ (n w : Nat) (s : TraceState) (c : Nat), 21 - w = n → w ≤ 21 →
    s.trace.count "mullvad status" = c →
    (∀ j, j ≤ 21 - w → classifyConnected (statusText e (c + j)) = false) →
    connectLoop e w s =
      (false, { trace := s.trace ++ List.replicate (22 - w) "mullvad status",
                sleeps := s.sleeps ++ List.replicate (22 - w) ((1 : Rat) / 2) }) := by
  intro n
  induction n with
  | zero =>
    intro w s c hn hw hc hall
    have hw21 : w = 21 := by omega
    subst hw21
    have h0 := hall 0 (by omega)
    simp only [Nat.add_zero] at h0
    rw [connectLoop]
    simp only [get_status_false_eq, hc, h0]
    rw [dif_pos (by omega)]
    simp [sleepHalf]
  | succ n ih =>
    intro w s c hn hw hc hall
    have h0 := hall 0 (by omega)
    simp only [Nat.add_zero] at h0
    rw [connectLoop]
    simp only [get_status_false_eq, hc, h0]
    rw [dif_neg (by omega)]
    simp only [Bool.false_eq_true, if_false]
    have hcount : (sleepHalf ⟨s.trace ++ ["mullvad status"], s.sleeps⟩).trace.count
        "mullvad status" = c + 1 := by
      simp [sleepHalf, count_snoc, hc]
    have hrec := ih (w + 1)
      (sleepHalf ⟨s.trace ++ ["mullvad status"], s.sleeps⟩) (c + 1)
      (by omega) (by omega) hcount ?_
    · rw [hrec]
      have h22 : 22 - w = (22 - (w + 1)) + 1 := by omega
      simp only [sleepHalf, h22, List.replicate_succ]
      simp
    · intro j hj
      have := hall (j + 1) (by omega)
      simpa [Nat.add_assoc, Nat.add_comm 1 j] using this

/-- Success behaviour of the poll loop: when the status text `k` positions
ahead of the current stream position classifies Connected, every earlier
one does not, and the loop has budget to reach it, the loop returns
`true`. -/
lemma connectLoop_success (e : SysEnv) :
    ∀ (k w : Nat) (s : TraceState) (c : Nat), w + k ≤ 21 →
    s.trace.count "mullvad status" = c →
    classifyConnected (statusText e (c + k)) = true →
    (∀ j, j < k → classifyConnected (statusText e (c + j)) = false) →
    (connectLoop e w s).1 = true := by
  intro k
  induction k with
  | zero =>
    intro w s c hb hc hk hall
    simp only [Nat.add_zero] at hk
    rw [connectLoop]
    simp only [get_status_false_eq, hc, hk]
    simp
  | succ k ih =>
    intro w s c hb hc hk hall
    have h0 := hall 0 (by omega)
    simp only [Nat.add_zero] at h0
    rw [connectLoop]
    simp only [get_status_false_eq, hc, h0]
    rw [dif_neg (by omega)]
    simp only [Bool.false_eq_true, if_false]
    have hcount : (sleepHalf ⟨s.trace ++ ["mullvad status"], s.sleeps⟩).trace.count
        "mullvad status" = c + 1 := by
      simp [sleepHalf, count_snoc, hc]
    apply ih (w + 1) _ (c + 1) (by omega) hcount
    · simpa [Nat.add_assoc, Nat.add_comm 1 k] using hk
    · intro j hj
      have := hall (j + 1) (by omega)
      simpa [Nat.add_assoc, Nat.add_comm 1 j] using this

/-- Trace shape of the poll loop: whatever the statuses, the loop only ever
appends status queries (at least one) to the trace. -/
lemma connectLoop_trace (e : SysEnv) :
    ∀ (n w : Nat) (s : TraceState), 21 - w = n →
    ∃ m, 1 ≤ m ∧
      (connectLoop e w s).2.trace = s.trace ++ List.replicate m "mullvad status" := by
  intro n
  induction n with
  | zero =>
    intro w s hn
    rw [connectLoop]
    simp only [get_status_false_eq]
    by_cases hc : classifyConnected (statusText e (s.trace.count "mullvad status")) = true
    · simp only [hc, if_true]
      exact ⟨1, by omega, by simp⟩
    · simp only [Bool.not_eq_true] at hc
      simp only [hc, Bool.false_eq_true, if_false]
      rw [dif_pos (by omega)]
      exact ⟨1, by omega, by simp [sleepHalf]⟩
  | succ n ih =>
    intro w s hn
    rw [connectLoop]
    simp only [get_status_false_eq]
    by_cases hc : classifyConnected (statusText e (s.trace.count "mullvad status")) = true
    · simp only [hc, if_true]
      exact ⟨1, by omega, by simp⟩
    · simp only [Bool.not_eq_true] at hc
      simp only [hc, Bool.false_eq_true, if_false]
      rw [dif_neg (by omega)]
      rcases ih (w + 1)
        (sleepHalf { trace := s.trace ++ ["mullvad status"], sleeps := s.sleeps })
        (by omega) with ⟨m, hm1, hm2⟩
      refine ⟨m + 1, by omega, ?_⟩
      rw [hm2]
      simp [sleepHalf, List.replicate_succ]

/-- Result congruence of the poll loop: two environments answering the
status queries with the same texts drive the loop identically. -/
lemma connectLoop_congr (e1 e2 : SysEnv)
    (hst : ∀ k, statusText e1 k = statusText e2 k) :
    ∀ (n w : Nat) (s : TraceState), 21 - w = n →
    connectLoop e1 w s = connectLoop e2 w s := by
  intro n
  induction n with
  | zero =>
    intro w s hn
    conv_lhs => rw [connectLoop]
    conv_rhs => rw [connectLoop]
    simp only [get_status_false_eq, hst]
    by_cases hc : classifyConnected (statusText e2 (s.trace.count "mullvad status")) = true
    · simp [hc]
    · simp only [Bool.not_eq_true] at hc
      simp only [hc, Bool.false_eq_true, if_false]
      rw [dif_pos (by omega), dif_pos (by omega)]
  | succ n ih =>
    intro w s hn
    conv_lhs => rw [connectLoop]
    conv_rhs => rw [connectLoop]
    simp only [get_status_false_eq, hst]
    by_cases hc : classifyConnected (statusText e2 (s.trace.count "mullvad status")) = true
    · simp [hc]
    · simp only [Bool.not_eq_true] at hc
      simp only [hc, Bool.false_eq_true, if_false]
      by_cases hw : w > 20
      · rw [dif_pos hw, dif_pos hw]
      · rw [dif_neg hw, dif_neg hw]
        exact ih (w + 1) _ (by omega)

/-- Unfolding of `connect` from a fresh state when the initial status
classifies Connected: the trace before the poll loop is
status, disconnect, relay-location, connect. -/
lemma connect_eq_of_connected (e : SysEnv) (country : String) (city server : Option String)
    (h : classifyConnected (statusText e 0) = true) :
    connect e country city server initState =
      connectLoop e 0
        { trace := ["mullvad status", "mullvad disconnect",
                    set_relay_location_cmd country city server, "mullvad connect"],
          sleeps := [] } := by
  unfold connect initState
  rw [get_status_false_eq]
  simp only [List.count_nil]
  simp only [h, if_true, disconnect, set_relay_location_eq, run_command_eq]
  rfl

/-- Unfolding of `connect` from a fresh state when the initial status does
not classify Connected: no disconnect command is issued. -/
lemma connect_eq_of_not_connected (e : SysEnv) (country : String) (city server : Option String)
    (h : classifyConnected (statusText e 0) = false) :
    connect e country city server initState =
      connectLoop e 0
        { trace := ["mullvad status",
                    set_relay_location_cmd country city server, "mullvad connect"],
          sleeps := [] } := by
  unfold connect initState
  rw [get_status_false_eq]
  simp only [List.count_nil]
  simp only [h, Bool.false_eq_true, if_false, set_relay_location_eq, run_command_eq]
  rfl

/-- Count of status queries in the trace prefix built by `connect` before
the poll loop starts (both the disconnect and the no-disconnect shapes):
exactly the one initial status query. -/
lemma pre_trace_count_disconnect (country : String) (city server : Option String) :
    (List.count "mullvad status"
      ["mullvad status", "mullvad disconnect",
       set_relay_location_cmd country city server, "mullvad connect"]) = 1 := by
  have hr := relay_cmd_ne_status country city server
  simp [List.count_cons, hr]

lemma pre_trace_count_no_disconnect (country : String) (city server : Option String) :
    (List.count "mullvad status"
      ["mullvad status",
       set_relay_location_cmd country city server, "mullvad connect"]) = 1 := by
  have hr := relay_cmd_ne_status country city server
  simp [List.count_cons, hr]

/- ===================== Claim theorems ===================== -/

/-- C3: for every status text, the controller's classification is Connected
exactly when the text contains "Connected" as a substring (there are
surrounding pieces around an occurrence of "Connected" in its character
list); texts without that substring are never classified Connected. -/
theorem c3_classified_iff_contains (s : String) :
    classifyConnected s = true ↔ ∃ p q, s.toList = p ++ "Connected".toList ++ q :=
  pyInList_iff "Connected".toList s.toList

/-- C4: `set_relay_location` issues the three-component location command
(country, rendered city, server) whenever `server` is truthy, the
two-component command when only `city` is truthy, and the country-only
command when neither is. -/
theorem c4_relay_location_forms (e : SysEnv) (country : String) (city server : Option String)
    (s : TraceState) :
    (truthy server = true →
      set_relay_location e country city server s =
        run_command e
          ("mullvad relay set location " ++ country ++ " " ++ pyStr city ++ " " ++ pyStr server) s)
    ∧ (truthy server = false → truthy city = true →
      set_relay_location e country city server s =
        run_command e ("mullvad relay set location " ++ country ++ " " ++ pyStr city) s)
    ∧ (truthy server = false → truthy city = false →
      set_relay_location e country city server s =
        run_command e ("mullvad relay set location " ++ country) s) := by
  refine ⟨fun h1 => ?_, fun h1 h2 => ?_, fun h1 h2 => ?_⟩ <;>
    simp [set_relay_location, h1]
  · simp [*]
  · simp [*]

/-- Witness for C4 at concrete selectors. -/
theorem c4_relay_location_forms_witness :
    set_relay_location quietEnv "us" (some "got") (some "se-got-wg-001") initState =
      run_command quietEnv "mullvad relay set location us got se-got-wg-001" initState
    ∧ set_relay_location quietEnv "us" (some "got") none initState =
      run_command quietEnv "mullvad relay set location us got" initState
    ∧ set_relay_location quietEnv "us" none none initState =
      run_command quietEnv "mullvad relay set location us" initState :=
  ⟨(c4_relay_location_forms quietEnv "us" (some "got") (some "se-got-wg-001") initState).1 rfl,
   (c4_relay_location_forms quietEnv "us" (some "got") none initState).2.1 rfl rfl,
   (c4_relay_location_forms quietEnv "us" none none initState).2.2 rfl rfl⟩

/-- Counterexample to C5 as stated: a server without a city does not
degrade to the country-only command; the issued command is the
three-component form with the literal text "None" in the city position. -/
theorem c5_counterexample :
    (set_relay_location quietEnv "us" none (some "se-got-wg-001") initState).2.trace =
      ["mullvad relay set location us None se-got-wg-001"]
    ∧ (set_relay_location quietEnv "us" none (some "se-got-wg-001") initState).2.trace ≠
      ["mullvad relay set location us"] := by
  exact ⟨rfl, by decide⟩

/-- C5 (amended): a truthy `server` with `city` unset issues the
three-component location command whose city component is Python's rendering
"None" — not the country-only form. -/
theorem c5_amended_none_city (e : SysEnv) (country : String) (server : Option String)
    (s : TraceState) (h : truthy server = true) :
    set_relay_location e country none server s =
      run_command e
        ("mullvad relay set location " ++ country ++ " " ++ "None" ++ " " ++ pyStr server) s := by
  simp [set_relay_location, h, pyStr]

/-- Witness for the amended C5. -/
theorem c5_amended_none_city_witness :
    set_relay_location quietEnv "us" none (some "se-got-wg-001") initState =
      run_command quietEnv
        ("mullvad relay set location " ++ "us" ++ " " ++ "None" ++ " " ++ pyStr (some "se-got-wg-001"))
        initState :=
  c5_amended_none_city quietEnv "us" (some "se-got-wg-001") initState rfl

/-- C6: `run_command` always returns the captured stdout and stderr texts
of the spawned process (no code path raises), and its result never depends
on exit codes: two machines whose processes produce the same texts yield
identical results whatever their exit codes. -/
theorem c6_run_command_ignores_exit_code (e : SysEnv) (command : String) (s : TraceState) :
    run_command e command s =
      (((sysExec e command (s.trace.count command)).stdout,
        (sysExec e command (s.trace.count command)).stderr),
       { trace := s.trace ++ [command], sleeps := s.sleeps })
    ∧ (∀ e2 : SysEnv,
        (∀ c k, (sysExec e2 c k).stdout = (sysExec e c k).stdout ∧
                (sysExec e2 c k).stderr = (sysExec e c k).stderr) →
        run_command e2 command s = run_command e command s) := by
  refine ⟨rfl, fun e2 h => ?_⟩
  rw [run_command_eq, run_command_eq, (h command (s.trace.count command)).1,
    (h command (s.trace.count command)).2]

/-- Witness for C6: same texts, exit 1 versus exit 0, identical results. -/
theorem c6_run_command_ignores_exit_code_witness :
    run_command exitOneEnv "mullvad connect" initState =
      run_command exitZeroEnv "mullvad connect" initState :=
  (c6_run_command_ignores_exit_code exitZeroEnv "mullvad connect" initState).2
    exitOneEnv (fun _ _ => ⟨rfl, rfl⟩)

/-- C7: `get_account_number` on the account-status text whose first line is
"Account: 1234567890123" returns the integer 1234567890123; on any output
whose first line has no colon it raises IndexError (a hard parse failure,
never a silently returned default). -/
theorem c7_account_number_parse :
    get_account_number (.ok "Account: 1234567890123\nExpires: ...") =
      .ok (.value 1234567890123)
    ∧ ∀ (s : String), ':' ∉ py_first_line (py_strip_chars s.toList) →
        get_account_number (.ok s) = .error .indexError := by
  constructor
  · rfl
  · intro s hs
    have h1 : py_split_char ':' (py_first_line (py_strip_chars s.toList)) =
        [py_first_line (py_strip_chars s.toList)] := py_split_char_of_not_mem ':' _ hs
    have h0 : (py_split_char '\n' (py_strip_chars s.toList))[0]? =
        some (py_first_line (py_strip_chars s.toList)) := by
      unfold py_first_line
      cases hsp : py_split_char '\n' (py_strip_chars s.toList) with
      | nil => exact absurd hsp (py_split_char_ne_nil _ _)
      | cons a r => simp
    simp only [get_account_number, h0, h1]
    rfl

/-- Witness for C7 on a colon-free output. -/
theorem c7_account_number_parse_witness :
    ':' ∉ py_first_line (py_strip_chars ("Currently unavailable").toList)
    ∧ get_account_number (.ok "Currently unavailable") = .error .indexError :=
  ⟨by decide, c7_account_number_parse.2 "Currently unavailable" (by decide)⟩

/-- Counterexample to C8 as stated: on the shell-mediated `run_command`
path a missing binary is not surfaced distinctly — a machine without the
binary and a machine whose tool merely reports the same error text produce
identical caller-visible results. -/
theorem c8_counterexample : ¬ claimC8 := by
  intro h
  exact h missingBinaryEnv mimicNotFoundEnv "mullvad status" initState rfl rfl rfl

/-- C8 (amended): only the direct, list-based spawn in `get_account_number`
surfaces a missing binary as a distinct fatal failure (FileNotFoundError,
not retried, not converted); the shell-mediated `run_command` instead
returns an ordinary text pair holding the shell's not-found report. -/
theorem c8_amended_spawn_failure (e : SysEnv) (h : e.mullvadPresent = false) :
    get_account_number (accountSpawn e) = .error .fileNotFoundError
    ∧ ∀ (command : String) (s : TraceState),
        (run_command e command s).1 = (shellNotFound.stdout, shellNotFound.stderr) := by
  constructor
  · simp [accountSpawn, h, get_account_number]
  · intro command s
    rw [run_command_eq]
    simp [sysExec, h]

/-- Witness for the amended C8 on a machine without the binary. -/
theorem c8_amended_spawn_failure_witness :
    get_account_number (accountSpawn missingBinaryEnv) = .error .fileNotFoundError
    ∧ (run_command missingBinaryEnv "mullvad status" initState).1 =
      (shellNotFound.stdout, shellNotFound.stderr) :=
  ⟨(c8_amended_spawn_failure missingBinaryEnv rfl).1,
   (c8_amended_spawn_failure missingBinaryEnv rfl).2 "mullvad status" initState⟩

/-- C9: `disconnect` issues exactly one external command — the disconnect
command appended to the trace — returns its stdout/stderr pair directly,
and performs no status query and no polling (the sleep list is unchanged,
and the only trace growth is the single disconnect command). -/
theorem c9_disconnect_passthrough (e : SysEnv) (s : TraceState) :
    disconnect e s =
      (((sysExec e "mullvad disconnect" (s.trace.count "mullvad disconnect")).stdout,
        (sysExec e "mullvad disconnect" (s.trace.count "mullvad disconnect")).stderr),
       { trace := s.trace ++ ["mullvad disconnect"], sleeps := s.sleeps })
    ∧ (disconnect e s).2.trace = s.trace ++ ["mullvad disconnect"]
    ∧ (disconnect e s).2.sleeps = s.sleeps :=
  ⟨rfl, rfl, rfl⟩

/- ========== Status evaluation helpers for concrete machines ========== -/

lemma neverConnected_status (j : Nat) :
    classifyConnected (statusText neverConnectedEnv j) = false := rfl

lemma lateConnect_status_ne (j : Nat) (h : ¬ j = 22) :
    classifyConnected (statusText lateConnectEnv j) = false := by
  have hst : statusText lateConnectEnv j =
      py_strip (if j = 22 then
          ({ exitCode := 0, stdout := "Connected to se-got-wg-001", stderr := "" } : ProcOutput)
        else { exitCode := 0, stdout := "Connecting", stderr := "" }).stdout := rfl
  rw [hst, if_neg h]
  decide

/-- C1 (amended): the poll loop actually makes up to 22 status polls — the
guard `wait_iter > 20` is tested before the increment, so poll attempts at
`wait_iter` values 0..21 all run, each followed by a 0.5 time-unit sleep
(≈11 time-units in all).  `connect` returns false exactly when none of the
22 polled status texts (stream positions 1..22; position 0 is the initial
disconnect check) classifies Connected, and returns true on the first poll
cycle whose status text does; timeout is the boolean false, never an
exception. -/
theorem c1_amended_poll_bound (e : SysEnv) (country : String) (city server : Option String) :
    ((∀ j, 1 ≤ j → j ≤ 22 → classifyConnected (statusText e j) = false) →
      (connect e country city server initState).1 = false ∧
      (connect e country city server initState).2.sleeps =
        List.replicate 22 ((1 : Rat) / 2))
    ∧ (∀ k, 1 ≤ k → k ≤ 22 → classifyConnected (statusText e k) = true →
        (∀ j, 1 ≤ j → j < k → classifyConnected (statusText e j) = false) →
        (connect e country city server initState).1 = true) := by
  constructor
  · intro hall
    by_cases hc : classifyConnected (statusText e 0) = true
    · rw [connect_eq_of_connected e country city server hc]
      have hres := connectLoop_timeout e 21 0
        ⟨["mullvad status", "mullvad disconnect",
          set_relay_location_cmd country city server, "mullvad connect"], []⟩ 1
        rfl (by omega) (pre_trace_count_disconnect country city server)
        (fun j hj => hall (1 + j) (by omega) (by omega))
      rw [hres]
      exact ⟨rfl, by simp⟩
    · simp only [Bool.not_eq_true] at hc
      rw [connect_eq_of_not_connected e country city server hc]
      have hres := connectLoop_timeout e 21 0
        ⟨["mullvad status",
          set_relay_location_cmd country city server, "mullvad connect"], []⟩ 1
        rfl (by omega) (pre_trace_count_no_disconnect country city server)
        (fun j hj => hall (1 + j) (by omega) (by omega))
      rw [hres]
      exact ⟨rfl, by simp⟩
  · intro k hk1 hk2 hktrue hprior
    by_cases hc : classifyConnected (statusText e 0) = true
    · rw [connect_eq_of_connected e country city server hc]
      refine connectLoop_success e (k - 1) 0 _ 1 (by omega)
        (pre_trace_count_disconnect country city server) ?_ ?_
      · have hk : 1 + (k - 1) = k := by omega
        rw [hk]; exact hktrue
      · intro j hj
        exact hprior (1 + j) (by omega) (by omega)
    · simp only [Bool.not_eq_true] at hc
      rw [connect_eq_of_not_connected e country city server hc]
      refine connectLoop_success e (k - 1) 0 _ 1 (by omega)
        (pre_trace_count_no_disconnect country city server) ?_ ?_
      · have hk : 1 + (k - 1) = k := by omega
        rw [hk]; exact hktrue
      · intro j hj
        exact hprior (1 + j) (by omega) (by omega)

/-- Witness for the amended C1: a machine that never reports connected
makes `connect` return false after 22 sleeps of 0.5; a machine whose very
first poll reports connected makes it return true. -/
theorem c1_amended_poll_bound_witness :
    ((connect neverConnectedEnv "us" none none initState).1 = false ∧
      (connect neverConnectedEnv "us" none none initState).2.sleeps =
        List.replicate 22 ((1 : Rat) / 2))
    ∧ (connect alwaysConnectedEnv "us" none none initState).1 = true :=
  ⟨(c1_amended_poll_bound neverConnectedEnv "us" none none).1
      (fun j _ _ => neverConnected_status j),
   (c1_amended_poll_bound alwaysConnectedEnv "us" none none).2 1 (by omega) (by omega)
      rfl (fun j h1 h2 => absurd h1 (by omega))⟩

/-- Counterexample to C1 as stated: on the machine whose status stream
classifies Connected for the first time at stream position 22, none of the
first 21 poll attempts sees a connected status, yet `connect` returns true
(on its 22nd poll attempt) rather than the false the claim demands. -/
theorem c1_counterexample : ¬ claimC1 := by
  intro h
  have hfalse := (h lateConnectEnv "us" none none).1
    (fun j h1 h2 => lateConnect_status_ne j (by omega))
  have hc : classifyConnected (statusText lateConnectEnv 0) = false :=
    lateConnect_status_ne 0 (by omega)
  have htrue : (connect lateConnectEnv "us" none none initState).1 = true := by
    rw [connect_eq_of_not_connected lateConnectEnv "us" none none hc]
    refine connectLoop_success lateConnectEnv 21 0 _ 1 (by omega)
      (pre_trace_count_no_disconnect "us" none none) ?_ ?_
    · decide
    · intro j hj
      exact lateConnect_status_ne (1 + j) (by omega)
  rw [hfalse] at htrue
  cases htrue

/-- C2: when the initial status query classifies Connected, the commands
issued by `connect` are, in order, the status query, the disconnect
command, the relay-location command and the connect command, followed only
by status polls; when it does not classify Connected, no disconnect command
is ever issued and the rest is identical. -/
theorem c2_command_order (e : SysEnv) (country : String) (city server : Option String) :
    (classifyConnected (statusText e 0) = true →
      ∃ m, 1 ≤ m ∧
        (connect e country city server initState).2.trace =
          ["mullvad status", "mullvad disconnect",
           set_relay_location_cmd country city server, "mullvad connect"]
            ++ List.replicate m "mullvad status")
    ∧ (classifyConnected (statusText e 0) = false →
      "mullvad disconnect" ∉ (connect e country city server initState).2.trace
      ∧ ∃ m, 1 ≤ m ∧
          (connect e country city server initState).2.trace =
            ["mullvad status",
             set_relay_location_cmd country city server, "mullvad connect"]
              ++ List.replicate m "mullvad status") := by
  constructor
  · intro hc
    rw [connect_eq_of_connected e country city server hc]
    rcases connectLoop_trace e 21 0
      ⟨["mullvad status", "mullvad disconnect",
        set_relay_location_cmd country city server, "mullvad connect"], []⟩ rfl
      with ⟨m, hm1, hm2⟩
    exact ⟨m, hm1, hm2⟩
  · intro hc
    rw [connect_eq_of_not_connected e country city server hc]
    rcases connectLoop_trace e 21 0
      ⟨["mullvad status",
        set_relay_location_cmd country city server, "mullvad connect"], []⟩ rfl
      with ⟨m, hm1, hm2⟩
    constructor
    · rw [hm2]
      have h1 : ¬ ("mullvad disconnect" = "mullvad status") := by decide
      have h2 : ¬ ("mullvad disconnect" = "mullvad connect") := by decide
      have h3 : ¬ ("mullvad disconnect" = set_relay_location_cmd country city server) :=
        fun hh => relay_cmd_ne_disconnect country city server hh.symm
      simp [List.mem_append, List.mem_replicate, h1, h2, h3]
    · exact ⟨m, hm1, hm2⟩

/-- Witness for C2 on a machine that starts connected and one that does
not. -/
theorem c2_command_order_witness :
    (∃ m, 1 ≤ m ∧
      (connect alwaysConnectedEnv "us" none none initState).2.trace =
        ["mullvad status", "mullvad disconnect",
         set_relay_location_cmd "us" none none, "mullvad connect"]
          ++ List.replicate m "mullvad status")
    ∧ ("mullvad disconnect" ∉ (connect neverConnectedEnv "us" none none initState).2.trace
      ∧ ∃ m, 1 ≤ m ∧
          (connect neverConnectedEnv "us" none none initState).2.trace =
            ["mullvad status",
             set_relay_location_cmd "us" none none, "mullvad connect"]
              ++ List.replicate m "mullvad status") :=
  ⟨(c2_command_order alwaysConnectedEnv "us" none none).1 rfl,
   (c2_command_order neverConnectedEnv "us" none none).2 rfl⟩

/-- C10: the boolean returned by `connect` depends only on the sequence of
status texts the tool returns — two machines answering every status query
with the same stdout drive `connect` to the same boolean, whatever the
stdout/stderr (and exit codes) of the disconnect, relay-location and
connect commands. -/
theorem c10_result_from_status_only
    (country : String) (city server : Option String) (e1 e2 : SysEnv)
    (h : ∀ k, (sysExec e1 "mullvad status" k).stdout =
              (sysExec e2 "mullvad status" k).stdout) :
    (connect e1 country city server initState).1 =
      (connect e2 country city server initState).1 := by
  have hst : ∀ k, statusText e1 k = statusText e2 k := by
    intro k
    unfold statusText
    rw [h k]
  by_cases hc : classifyConnected (statusText e1 0) = true
  · rw [connect_eq_of_connected e1 country city server hc,
      connect_eq_of_connected e2 country city server (by rw [← hst 0]; exact hc)]
    rw [connectLoop_congr e1 e2 hst 21 0 _ rfl]
  · simp only [Bool.not_eq_true] at hc
    rw [connect_eq_of_not_connected e1 country city server hc,
      connect_eq_of_not_connected e2 country city server (by rw [← hst 0]; exact hc)]
    rw [connectLoop_congr e1 e2 hst 21 0 _ rfl]

/-- Witness for C10: two machines with the same status stream but different
responses to every other command yield the same boolean. -/
theorem c10_result_from_status_only_witness :
    (connect statusSameEnvA "us" none none initState).1 =
      (connect statusSameEnvB "us" none none initState).1 :=
  c10_result_from_status_only "us" none none statusSameEnvA statusSameEnvB
    (fun _ => rfl)
